import Mathlib

/-!
Verification of the CynanBot chat-bot integration layer against its
natural-language specification.

The development shallowly embeds the Python sources:
  - `src/authHelper.py` (`AuthHelper`): configuration loading, token
    validation and refresh against the identity service;
  - `src/weatherRepository.py` (`WeatherRepository`, `WeatherReport`):
    read-through-cache weather fetching with best-effort air-quality
    enrichment;
  - `src/wotd.py` (`Wotd`): word-of-the-day record.

Python values flowing through JSON responses are modelled by the inductive
type `PyVal`; Python exceptions are modelled by `Except PyErr`.  Finite
floats are modelled as integers (`PyVal.int`); the non-finite floats that
`utils.isValidNum` rejects are `PyVal.nan` and `PyVal.inf`.  Collaborators
that live outside this repository (`CynanBotCommon.timedDict.TimedDict`,
`CynanBotCommon.utils`, `UserTokensRepository`, `User`, `Location`) are
modelled from the specification where so marked.
-/

/-- Python values as they appear in parsed JSON responses and as arguments
to the embedded functions.  `none` is Python's `None`; `nan`/`inf` stand for
the non-finite floats; finite numbers are collapsed to `int`. -/
inductive PyVal where
  | none : PyVal
  | bool : Bool → PyVal
  | int : Int → PyVal
  | nan : PyVal
  | inf : PyVal
  | str : String → PyVal
  | list : List PyVal → PyVal
  | dict : List (String × PyVal) → PyVal

/-- Python exceptions raised by the embedded code.  Transport-layer
exceptions raised by `requests` (`ConnectionError`, `HTTPError`,
`MaxRetryError`, `NewConnectionError`, `Timeout`) are collapsed into
`transportError`. -/
inductive PyErr where
  | keyError : PyErr
  | typeError : PyErr
  | attributeError : PyErr
  | valueError : PyErr
  | runtimeError : PyErr
  | fileNotFoundError : PyErr
  | ioError : PyErr
  | jsonDecodeError : PyErr
  | transportError : PyErr
deriving DecidableEq

/-- `v is None` (identity comparison against Python `None`). -/
def PyVal.isNone : PyVal → Bool
  | .none => true
  | _ => false

/-- `v == s` for a string literal `s`: true exactly when `v` is that string. -/
def PyVal.isStrEq (v : PyVal) (s : String) : Bool :=
  match v with
  | .str t => t == s
  | _ => false

/-- Python `str.isspace()`: non-empty and every character is whitespace. -/
def pyIsSpace (s : String) : Bool :=
  !s.isEmpty && s.toList.all (fun c => c.isWhitespace)

/-- The recurring Python validation pattern
`x == None or len(x) == 0 or x.isspace()` on an optional string. -/
def strMalformed : Option String → Bool
  | Option.none => true
  | Option.some s => s.isEmpty || pyIsSpace s

/-- Modelled from the spec: `CynanBotCommon.utils.isValidStr` (not under
`src/`) — the configuration/API-key strings are "required non-blank
strings", i.e. present, non-empty and not whitespace-only. -/
def isValidStr (s : Option String) : Bool :=
  !strMalformed s

/-- Modelled from the spec: `CynanBotCommon.utils.isValidNum` (not under
`src/`) — a numeric field is well-formed when it is "finite, present"
(§4.3 step 3).  Finite floats are modelled as `PyVal.int`. -/
def isValidNum : PyVal → Bool
  | .int _ => true
  | _ => false

/-- Python `len(v)`: defined on strings, lists and dicts, `TypeError`
otherwise (in particular on `None` and numbers). -/
def pyLen : PyVal → Except PyErr Nat
  | .str s => .ok s.length
  | .list xs => .ok xs.length
  | .dict es => .ok es.length
  | _ => .error .typeError

/-- Association-list lookup backing the dict operations. -/
def pyDictLookup (es : List (String × PyVal)) (k : String) : Option PyVal :=
  (es.find? (fun p => p.1 == k)).map (fun p => p.2)

/-- Python `k in v` for the membership tests the sources perform on parsed
JSON objects.  Containers other than dicts are not modelled (`TypeError`);
every input exercised by the theorems is a dict. -/
def pyContains (v : PyVal) (k : String) : Except PyErr Bool :=
  match v with
  | .dict es => .ok (pyDictLookup es k).isSome
  | _ => .error .typeError

/-- Python subscript `v[k]`: `KeyError` when the key is absent,
`TypeError` when `v` is not a dict. -/
def dictGet (v : PyVal) (k : String) : Except PyErr PyVal :=
  match v with
  | .dict es =>
    match pyDictLookup es k with
    | Option.some x => .ok x
    | Option.none => .error .keyError
  | _ => .error .typeError

/-- Python `v.get(k)` (default `None`): `AttributeError` when `v` is not a
dict. -/
def dictGetOpt (v : PyVal) (k : String) : Except PyErr PyVal :=
  match v with
  | .dict es =>
    match pyDictLookup es k with
    | Option.some x => .ok x
    | Option.none => .ok PyVal.none
  | _ => .error .attributeError

/-- Python `str(v)` as used by f-string interpolation.  Containers render
to an approximate placeholder; no theorem inspects those renderings. -/
def pyStr : PyVal → String
  | .none => "None"
  | .bool b => if b then "True" else "False"
  | .int n => toString n
  | .nan => "nan"
  | .inf => "inf"
  | .str s => s
  | .list _ => "[...]"
  | .dict _ => "\x7b...\x7d"

/- ### `src/wotd.py` -/

/-- The `Wotd` record (`src/wotd.py`).  Fields hold what the constructor
stored; `word` and `definition` are validated at construction. -/
structure Wotd where
  definition : Option String
  englishExample : Option String
  foreignExample : Option String
  word : Option String

namespace Wotd

/-- `Wotd.__init__` (`src/wotd.py` lines 2-17): raises `ValueError` when
`definition` or `word` is `None`, empty or whitespace-only, otherwise
stores all four arguments. -/
def init (definition englishExample foreignExample word : Option String) :
    Except PyErr Wotd :=
  if strMalformed definition then .error .valueError
  else if strMalformed word then .error .valueError
  else .ok ⟨definition, englishExample, foreignExample, word⟩

/-- `Wotd.getDefinition`. -/
def getDefinition (w : Wotd) : Option String := w.definition

/-- `Wotd.getEnglishExample`. -/
def getEnglishExample (w : Wotd) : Option String := w.englishExample

/-- `Wotd.getForeignExample`. -/
def getForeignExample (w : Wotd) : Option String := w.foreignExample

/-- `Wotd.getWord`. -/
def getWord (w : Wotd) : Option String := w.word

/-- `Wotd.hasExamples` (`src/wotd.py` lines 31-35): both examples are
non-`None`, non-empty and not whitespace-only. -/
def hasExamples (w : Wotd) : Bool :=
  !strMalformed w.englishExample && !strMalformed w.foreignExample

end Wotd

/-- Modelled from the spec: `User` (module `user`, not under `src/`) — a
principal is "a chat handle (string identifier)" (§3); the auth code only
calls `user.getHandle()`. -/
structure User where
  handle : String

/-- Modelled from the spec: `UserTokensRepository` (not under `src/`) — the
Token Store "persists per-handle access/refresh token pairs" with
`getAccessToken(handle) -> string|absent`, `getRefreshToken(handle) ->
string|absent` and `setTokens(handle, access, refresh)` (§2, §6).  Absence
is Python `None`, i.e. `PyVal.none`. -/
structure TokenStore where
  access : String → PyVal
  refresh : String → PyVal

/-- `UserTokensRepository.setTokens`: atomically replaces the pair stored
for `handle`.  Modelled from the spec (§6). -/
def TokenStore.setTokens (s : TokenStore) (handle : String) (a r : PyVal) :
    TokenStore :=
  { access := fun h => if h == handle then a else s.access h,
    refresh := fun h => if h == handle then r else s.refresh h }

/-- The upstream identity service as a deterministic oracle.  Each field is
the combined result of the HTTP call and `json.loads` on its body: an
exception (e.g. an uncaught transport error or a JSON decode error) or the
parsed JSON value.  `validateResponse` is keyed by the access token placed
in the `Authorization` header; `tokenResponse` is keyed by the
`refresh_token` form parameter (client id, secret and grant type are fixed
per helper). -/
structure AuthNetwork where
  validateResponse : PyVal → Except PyErr PyVal
  tokenResponse : PyVal → Except PyErr PyVal

/-- The Python test `k not in jsonResponse or len(jsonResponse[k]) == 0`
(with short-circuit evaluation), used for `access_token`, `refresh_token`
(`src/authHelper.py` lines 95-98) and `client_id` (line 138). -/
def pyNotInOrEmptyLen (v : PyVal) (k : String) : Except PyErr Bool := do
  let mem ← pyContains v k
  if !mem then pure true
  else do
    let x ← dictGet v k
    let n ← pyLen x
    pure (n == 0)

/-- `AuthHelper.__refreshAccessToken` (`src/authHelper.py` lines 74-104):
reads the stored refresh token, posts it to the token-exchange endpoint,
requires non-empty `access_token` and `refresh_token` in the response
(`ValueError` otherwise) and only then writes the new pair to the Token
Store.  The `Except` result carries the updated store on success; any
raised exception leaves the store untouched because `setTokens` is the
final statement. -/
def refreshAccessToken (net : AuthNetwork) (store : TokenStore)
    (handle : String) : Except PyErr TokenStore := do
  let refreshToken := store.refresh handle
  let jsonResponse ← net.tokenResponse refreshToken
  let accessBad ← pyNotInOrEmptyLen jsonResponse "access_token"
  if accessBad then throw PyErr.valueError
  else do
    let refreshBad ← pyNotInOrEmptyLen jsonResponse "refresh_token"
    if refreshBad then throw PyErr.valueError
    else do
      let a ← dictGet jsonResponse "access_token"
      let r ← dictGet jsonResponse "refresh_token"
      pure (store.setTokens handle a r)

/-- Outcome of one batch run of `validateAndRefreshAccessTokens`: the Token
Store as left by the run, how many times `__refreshAccessToken` was entered
(ghost instrumentation used to state "no refresh call"), and the exception
that escaped the call, if any.  Python exceptions abort the loop but keep
the side effects already performed on the store. -/
structure BatchResult where
  store : TokenStore
  refreshCalls : Nat
  err : Option PyErr

/-- The `for user in users` loop of `AuthHelper.validateAndRefreshAccessTokens`
(`src/authHelper.py` lines 120-144): skip principals with no stored access
token; call the validate endpoint; when `client_id` is absent or empty in
the response, refresh.  No exception is caught, so the first one aborts the
remaining principals. -/
def validateLoop (net : AuthNetwork) :
    List User → TokenStore → Nat → BatchResult
  | [], store, calls => ⟨store, calls, none⟩
  | u :: rest, store, calls =>
    let accessToken := store.access u.handle
    if accessToken.isNone then validateLoop net rest store calls
    else
      match net.validateResponse accessToken with
      | .error e => ⟨store, calls, some e⟩
      | .ok jsonResponse =>
        match pyNotInOrEmptyLen jsonResponse "client_id" with
        | .error e => ⟨store, calls, some e⟩
        | .ok clientIdBad =>
          if clientIdBad then
            match refreshAccessToken net store u.handle with
            | .error e => ⟨store, calls + 1, some e⟩
            | .ok store2 => validateLoop net rest store2 (calls + 1)
          else validateLoop net rest store calls

/-- `AuthHelper.validateAndRefreshAccessTokens` (`src/authHelper.py` lines
106-145).  The `userTokensRepository == None` guard is discharged by
typing; a `None` or empty user list is a no-op. -/
def validateAndRefreshAccessTokens (net : AuthNetwork)
    (users : Option (List User)) (store : TokenStore) : BatchResult :=
  match users with
  | Option.none => ⟨store, 0, none⟩
  | Option.some us =>
    if us.length == 0 then ⟨store, 0, none⟩
    else validateLoop net us store 0

/-- The contents of the auth file as seen through `os.path.exists` +
`json.load`: the file may be missing, unparseable, or parsed to a JSON
value. -/
inductive AuthFileInput where
  | missing : AuthFileInput
  | unparseable : AuthFileInput
  | parsed : PyVal → AuthFileInput

/-- `AuthHelper.__readJson` (`src/authHelper.py` lines 62-72):
`FileNotFoundError` when the file is missing, a `json.JSONDecodeError`
propagates from `json.load`, and `IOError` when the parsed contents are
`None`. -/
def readJson : AuthFileInput → Except PyErr PyVal
  | .missing => .error .fileNotFoundError
  | .unparseable => .error .jsonDecodeError
  | .parsed v => if v.isNone then .error .ioError else .ok v

/-- The Python check `x == None or len(x) == 0 or x.isspace()` applied to
an arbitrary value taken from parsed JSON: `len` raises `TypeError` on
values without a length and `.isspace()` raises `AttributeError` on
non-strings. -/
def pyStrMalformedCheck (v : PyVal) : Except PyErr Bool :=
  if v.isNone then .ok true
  else do
    let n ← pyLen v
    if n == 0 then pure true
    else
      match v with
      | .str s => pure (pyIsSpace s)
      | _ => .error .attributeError

/-- The `AuthHelper` instance after successful construction: the three
configured values as stored by `__init__`. -/
structure AuthHelper where
  clientId : PyVal
  clientSecret : PyVal
  ircAuthToken : PyVal

namespace AuthHelper

/-- `AuthHelper.__init__` (`src/authHelper.py` lines 16-51): validates the
`authFile` argument, reads and parses the file, requires the `clientId`,
`clientSecret` and `ircAuthToken` keys, and rejects `None`, empty or
whitespace-only values. -/
def init (authFile : Option String) (file : AuthFileInput) :
    Except PyErr AuthHelper := do
  if strMalformed authFile then throw PyErr.valueError
  let jsonContents ← readJson file
  let hasCid ← pyContains jsonContents "clientId"
  if !hasCid then throw PyErr.valueError
  let clientId ← dictGet jsonContents "clientId"
  let hasCs ← pyContains jsonContents "clientSecret"
  if !hasCs then throw PyErr.valueError
  let clientSecret ← dictGet jsonContents "clientSecret"
  let hasIrc ← pyContains jsonContents "ircAuthToken"
  if !hasIrc then throw PyErr.valueError
  let ircAuthToken ← dictGet jsonContents "ircAuthToken"
  let cidBad ← pyStrMalformedCheck clientId
  if cidBad then throw PyErr.valueError
  let csBad ← pyStrMalformedCheck clientSecret
  if csBad then throw PyErr.valueError
  let ircBad ← pyStrMalformedCheck ircAuthToken
  if ircBad then throw PyErr.valueError
  pure ⟨clientId, clientSecret, ircAuthToken⟩

/-- `AuthHelper.getClientId`. -/
def getClientId (h : AuthHelper) : PyVal := h.clientId

/-- `AuthHelper.getClientSecret`. -/
def getClientSecret (h : AuthHelper) : PyVal := h.clientSecret

/-- `AuthHelper.getIrcAuthToken`. -/
def getIrcAuthToken (h : AuthHelper) : PyVal := h.ircAuthToken

end AuthHelper

/- ### `src/weatherRepository.py` -/

/-- Modelled from the spec: `CynanBotCommon.timedDict.TimedDict` is not
under `src/`.  Per §3/§4.1 the TTL Cache is "`\x7b ttl: duration, entries:
mapping from key to CacheEntry<V> \x7d`" where a `CacheEntry` is
"`\x7b value: V, insertedAt: timestamp \x7d`", at most one entry per key.
Timestamps and the TTL are in minutes, modelled as integers. -/
structure TimedDict (V : Type) where
  timeDelta : Int
  entries : List (String × Int × V)

namespace TimedDict

/-- The raw (pre-expiry) entry stored for a key, if any. -/
def lookup {V : Type} (d : TimedDict V) (k : String) : Option (Int × V) :=
  (d.entries.find? (fun e => e.1 == k)).map (fun e => e.2)

/-- Modelled from the spec (§4.1): `delete(key)` "removes any entry for
`key`; a no-op if absent". -/
def delete {V : Type} (d : TimedDict V) (k : String) : TimedDict V :=
  { d with entries := d.entries.filter (fun e => e.1 != k) }

/-- Modelled from the spec (§4.1): `set(key, value)` "replaces any existing
entry for `key` with `\x7b value, insertedAt: now \x7d`". -/
def set {V : Type} (d : TimedDict V) (now : Int) (k : String) (v : V) :
    TimedDict V :=
  { d with entries := (k, now, v) :: d.entries.filter (fun e => e.1 != k) }

/-- Modelled from the spec (§4.1): `get(key)` returns the stored value
unchanged while `now - insertedAt < ttl`; "if an entry exists but
`now - insertedAt >= ttl`, it is removed and `absent` is returned" (lazy
eviction).  Returns the result together with the dictionary after the
access. -/
def get {V : Type} (d : TimedDict V) (now : Int) (k : String) :
    Option V × TimedDict V :=
  match d.lookup k with
  | Option.none => (Option.none, d)
  | Option.some (ins, v) =>
    if d.timeDelta ≤ now - ins then (Option.none, d.delete k)
    else (Option.some v, d)

end TimedDict

/-- Modelled from the spec: `Location` (module `locationsRepository`, not
under `src/`) — the repository keys its cache by `location.getId()`; the
latitude/longitude only feed the request URL, which is abstracted into the
network oracle. -/
structure Location where
  id : String

/-- Result of one `requests.get` as the weather code observes it: either
one of the caught transport exceptions (`ConnectionError`, `HTTPError`,
`MaxRetryError`, `NewConnectionError`, `Timeout`), after which
`rawResponse` stays `None`, or a response whose `.json()` gives the carried
value. -/
inductive HttpAttempt where
  | transportError : HttpAttempt
  | ok : PyVal → HttpAttempt

/-- The two upstream endpoints as deterministic oracles for a single
`fetchWeather` invocation. -/
structure WeatherNetwork where
  weatherResponse : HttpAttempt
  airResponse : HttpAttempt

/-- `WeatherRepository.__createConditionIconsDict` (`src/weatherRepository.py`
lines 46-90), with aliases (`icons['201'] = icons['200']`) expanded. -/
def createConditionIconsDict : List (String × String) :=
  [("200", "⛈️"), ("201", "⛈️"), ("202", "⛈️"),
   ("210", "🌩️"), ("211", "🌩️"), ("212", "🌩️"),
   ("221", "⛈️"), ("230", "⛈️"), ("231", "⛈️"), ("232", "⛈️"),
   ("300", "☔"), ("301", "☔"), ("310", "☔"), ("311", "☔"), ("313", "☔"),
   ("500", "☔"),
   ("501", "🌧️"), ("502", "🌧️"), ("503", "🌧️"), ("504", "🌧️"),
   ("520", "🌧️"), ("521", "🌧️"), ("522", "🌧️"), ("531", "🌧️"),
   ("600", "❄️"), ("601", "❄️"), ("602", "🌨️"),
   ("711", "🌫️"), ("721", "🌫️"), ("731", "🌫️"), ("741", "🌫️"),
   ("762", "🌋"), ("771", "🌬"), ("781", "🌪️"),
   ("801", "☁️"), ("802", "☁️"), ("803", "☁️"), ("804", "☁️")]

/-- `WeatherRepository.__prettifyCondition` (`src/weatherRepository.py`
lines 213-223): optional icon prefix from the condition id, then the
`description` field (`KeyError` when absent). -/
def prettifyCondition (icons : List (String × String)) (conditionJson : PyVal) :
    Except PyErr String := do
  let hasId ← pyContains conditionJson "id"
  let conditionIcon ←
    if hasId then do
      let idv ← dictGet conditionJson "id"
      match icons.find? (fun p => p.1 == pyStr idv) with
      | Option.some p => pure (p.2 ++ " ")
      | Option.none => pure ""
    else pure ""
  let desc ← dictGet conditionJson "description"
  pure (conditionIcon ++ pyStr desc)

/-- The `conditions` accumulation of `fetchWeather`
(`src/weatherRepository.py` lines 162-165).  Iterating a non-list container
is not modelled (`TypeError`); every input exercised is a list. -/
def parseCurrentConditions (icons : List (String × String))
    (currentJson : PyVal) : Except PyErr (List String) := do
  let hasWeather ← pyContains currentJson "weather"
  if hasWeather then do
    let w ← dictGet currentJson "weather"
    let n ← pyLen w
    if 1 ≤ n then
      match w with
      | .list items => items.mapM (prettifyCondition icons)
      | _ => throw PyErr.typeError
    else pure []
  else pure []

/-- The `alerts` accumulation of `fetchWeather` (`src/weatherRepository.py`
lines 167-177). -/
def parseAlerts (jsonResponse : PyVal) : Except PyErr (List String) := do
  let hasAlerts ← pyContains jsonResponse "alerts"
  if hasAlerts then do
    let a ← dictGet jsonResponse "alerts"
    let n ← pyLen a
    if 1 ≤ n then
      match a with
      | .list items =>
        items.foldlM (fun acc alertJson => do
          let event ← dictGetOpt alertJson "event"
          let senderName ← dictGetOpt alertJson "sender_name"
          if event.isNone then pure acc
          else do
            let el ← pyLen event
            if 1 ≤ el then
              if senderName.isNone then
                pure (acc ++ ["Alert: " ++ pyStr event ++ "."])
              else do
                let sl ← pyLen senderName
                if sl == 0 then pure (acc ++ ["Alert: " ++ pyStr event ++ "."])
                else pure (acc ++
                  ["Alert from " ++ pyStr senderName ++ ": " ++ pyStr event ++ "."])
            else pure acc) []
      | _ => throw PyErr.typeError
    else pure []
  else pure []

/-- The `tomorrowsConditions` accumulation of `fetchWeather`
(`src/weatherRepository.py` lines 183-186): the raw `description` values
are appended, unprettified. -/
def parseTomorrowsConditions (tomorrowsJson : PyVal) :
    Except PyErr (List PyVal) := do
  let hasWeather ← pyContains tomorrowsJson "weather"
  if hasWeather then do
    let w ← dictGet tomorrowsJson "weather"
    let n ← pyLen w
    if 1 ≤ n then
      match w with
      | .list items => items.mapM (fun cj => dictGet cj "description")
      | _ => throw PyErr.typeError
    else pure []
  else pure []

/-- Python `a > b` on JSON numbers.  Comparisons involving `nan` are
`False`; `inf` dominates every finite value; non-numbers raise
`TypeError`. -/
def pyGt : PyVal → PyVal → Except PyErr Bool
  | .int a, .int b => .ok (decide (b < a))
  | .nan, .int _ => .ok false
  | .int _, .nan => .ok false
  | .nan, .nan => .ok false
  | .nan, .inf => .ok false
  | .inf, .nan => .ok false
  | .inf, .int _ => .ok true
  | .int _, .inf => .ok false
  | .inf, .inf => .ok false
  | _, _ => .error .typeError

/-- The `for dayJson in jsonResponse['daily']` loop of
`__chooseTomorrowFromForecast` (`src/weatherRepository.py` lines 40-44),
with Python's short-circuit `and`; `RuntimeError` when no viable tomorrow
is found. -/
def chooseTomorrowLoop (currentSunrise currentSunset : PyVal) :
    List PyVal → Except PyErr PyVal
  | [] => .error .runtimeError
  | dayJson :: rest => do
    let sr ← dictGet dayJson "sunrise"
    let b1 ← pyGt sr currentSunrise
    if b1 then do
      let ss ← dictGet dayJson "sunset"
      let b2 ← pyGt ss currentSunset
      if b2 then pure dayJson
      else chooseTomorrowLoop currentSunrise currentSunset rest
    else chooseTomorrowLoop currentSunrise currentSunset rest

/-- `WeatherRepository.__chooseTomorrowFromForecast`
(`src/weatherRepository.py` lines 36-44). -/
def chooseTomorrowFromForecast (jsonResponse : PyVal) : Except PyErr PyVal := do
  let current ← dictGet jsonResponse "current"
  let currentSunrise ← dictGet current "sunrise"
  let currentSunset ← dictGet current "sunset"
  let daily ← dictGet jsonResponse "daily"
  match daily with
  | .list days => chooseTomorrowLoop currentSunrise currentSunset days
  | _ => .error .typeError

/-- The `WeatherReport` record (`src/weatherRepository.py` lines 226-259).
`humidity` and `pressure` are stored as `int(round(...))` (the identity on
our integer-modelled finite floats); the temperatures are stored raw;
`airQuality` is stored unvalidated. -/
structure WeatherReport where
  airQuality : PyVal
  humidity : Int
  pressure : Int
  temperature : PyVal
  tomorrowsHighTemperature : PyVal
  tomorrowsLowTemperature : PyVal
  alerts : List String
  conditions : List String
  tomorrowsConditions : List PyVal

/-- `int(round(v))` on a validated numeric value (identity on the
integer-modelled finite floats; unreachable otherwise). -/
def pyRoundInt : PyVal → Int
  | .int n => n
  | _ => 0

namespace WeatherReport

/-- `WeatherReport.__init__` (`src/weatherRepository.py` lines 228-259):
raises `ValueError` when any of the five required numeric fields is not a
valid number; `airQuality` and the three lists are stored unchecked. -/
def init (airQuality humidity pressure temperature
    tomorrowsHighTemperature tomorrowsLowTemperature : PyVal)
    (alerts conditions : List String) (tomorrowsConditions : List PyVal) :
    Except PyErr WeatherReport :=
  if !isValidNum humidity then .error .valueError
  else if !isValidNum pressure then .error .valueError
  else if !isValidNum temperature then .error .valueError
  else if !isValidNum tomorrowsHighTemperature then .error .valueError
  else if !isValidNum tomorrowsLowTemperature then .error .valueError
  else .ok
    { airQuality := airQuality,
      humidity := pyRoundInt humidity,
      pressure := pyRoundInt pressure,
      temperature := temperature,
      tomorrowsHighTemperature := tomorrowsHighTemperature,
      tomorrowsLowTemperature := tomorrowsLowTemperature,
      alerts := alerts,
      conditions := conditions,
      tomorrowsConditions := tomorrowsConditions }

/-- `WeatherReport.hasAirQuality` (`src/weatherRepository.py` lines
324-325): `self.__airQuality is not None`. -/
def hasAirQuality (r : WeatherReport) : Bool :=
  !r.airQuality.isNone

end WeatherReport

/-- `WeatherRepository.__fetchAirQuality` (`src/weatherRepository.py` lines
92-123): `None` without any HTTP call when the IQAir API key is invalid;
`None` on a caught transport error; `None` when `status` is not
`"success"`; otherwise the nested `aqius` value (`KeyError` escaping when
the path is absent).  The second component counts HTTP calls issued. -/
def fetchAirQuality (iqAirApiKey : Option String) (net : WeatherNetwork) :
    Except PyErr PyVal × Nat :=
  if !isValidStr iqAirApiKey then (.ok PyVal.none, 0)
  else
    match net.airResponse with
    | .transportError => (.ok PyVal.none, 1)
    | .ok jsonResponse =>
      ((do
        let status ← dictGetOpt jsonResponse "status"
        if !status.isStrEq "success" then pure PyVal.none
        else do
          let d ← dictGet jsonResponse "data"
          let c ← dictGet d "current"
          let p ← dictGet c "pollution"
          dictGet p "aqius"), 1)

/-- The values `fetchWeather` extracts from the primary response body
before constructing the report (`src/weatherRepository.py` lines 157-186),
in source order. -/
structure WeatherFields where
  humidity : PyVal
  pressure : PyVal
  temperature : PyVal
  conditions : List String
  alerts : List String
  tomorrowsHighTemperature : PyVal
  tomorrowsLowTemperature : PyVal
  tomorrowsConditions : List PyVal

/-- The field-extraction phase of `fetchWeather`
(`src/weatherRepository.py` lines 157-186): `current`/`humidity`/
`pressure`/`temp` subscripts, current conditions, alerts, the viable
tomorrow entry and its `temp.max`/`temp.min`, and tomorrow's conditions.
Any raised exception propagates. -/
def extractWeatherFields (icons : List (String × String))
    (jsonResponse : PyVal) : Except PyErr WeatherFields := do
  let currentJson ← dictGet jsonResponse "current"
  let humidity ← dictGet currentJson "humidity"
  let pressure ← dictGet currentJson "pressure"
  let temperature ← dictGet currentJson "temp"
  let conditions ← parseCurrentConditions icons currentJson
  let alerts ← parseAlerts jsonResponse
  let tomorrowsJson ← chooseTomorrowFromForecast jsonResponse
  let tomorrowsTemp ← dictGet tomorrowsJson "temp"
  let tomorrowsHighTemperature ← dictGet tomorrowsTemp "max"
  let tomorrowsLowTemperature ← dictGet tomorrowsTemp "min"
  let tomorrowsConditions ← parseTomorrowsConditions tomorrowsJson
  pure ⟨humidity, pressure, temperature, conditions, alerts,
    tomorrowsHighTemperature, tomorrowsLowTemperature, tomorrowsConditions⟩

/-- The post-response phase of `fetchWeather` (`src/weatherRepository.py`
lines 157-204): extract fields, fetch air quality, construct the
`WeatherReport` catching only `ValueError` (the sole exception `init`
raises), leaving `weatherReport = None` in that case.  The second component
counts air-quality HTTP calls. -/
def buildWeatherReport (iqAirApiKey : Option String)
    (icons : List (String × String)) (net : WeatherNetwork)
    (jsonResponse : PyVal) : Except PyErr (Option WeatherReport) × Nat :=
  match extractWeatherFields icons jsonResponse with
  | .error e => (.error e, 0)
  | .ok f =>
    match fetchAirQuality iqAirApiKey net with
    | (.error e, airCalls) => (.error e, airCalls)
    | (.ok airQuality, airCalls) =>
      match WeatherReport.init airQuality f.humidity f.pressure f.temperature
          f.tomorrowsHighTemperature f.tomorrowsLowTemperature
          f.alerts f.conditions f.tomorrowsConditions with
      | .ok r => (.ok (some r), airCalls)
      | .error _ => (.ok none, airCalls)

/-- The `WeatherRepository` instance state (`src/weatherRepository.py`
lines 17-34): the IQAir key and the TTL cache.  The One Weather API key
only feeds the request URL, abstracted into the network oracle. -/
structure WeatherRepository where
  iqAirApiKey : Option String
  cache : TimedDict WeatherReport

namespace WeatherRepository

/-- `WeatherRepository.__init__` (`src/weatherRepository.py` lines 17-34):
rejects an invalid One Weather API key and a `None` `cacheTimeDelta`
(default 1 hour 30 minutes = 90 minutes); an invalid IQAir key is only
logged. -/
def init (oneWeatherApiKey iqAirApiKey : Option String)
    (cacheTimeDelta : Option Int := some 90) :
    Except PyErr WeatherRepository :=
  if !isValidStr oneWeatherApiKey then .error .valueError
  else
    match cacheTimeDelta with
    | Option.none => .error .valueError
    | Option.some d => .ok ⟨iqAirApiKey, ⟨d, []⟩⟩

end WeatherRepository

/-- Outcome of one `fetchWeather` call: the returned value or the escaped
exception, the cache as left by the call, and ghost counters for the HTTP
calls issued to the primary weather endpoint and the air-quality
endpoint. -/
structure FetchResult where
  result : Except PyErr (Option WeatherReport)
  cache : TimedDict WeatherReport
  primaryCalls : Nat
  airCalls : Nat

/-- `WeatherRepository.fetchWeather` (`src/weatherRepository.py` lines
125-211): return the cached report on a hit; otherwise call the primary
endpoint — a caught transport error deletes the cache entry and returns
`None`; otherwise build the report, deleting the cache entry and returning
`None` when construction failed with `ValueError`, and caching and
returning the report on success.  Exceptions other than the caught ones
escape with the cache in its at-raise state. -/
def fetchWeather (repo : WeatherRepository) (now : Int) (location : Location)
    (net : WeatherNetwork) : FetchResult :=
  let cacheResult := repo.cache.get now location.id
  match cacheResult.1 with
  | Option.some v => ⟨.ok (some v), cacheResult.2, 0, 0⟩
  | Option.none =>
    let cache1 := cacheResult.2
    match net.weatherResponse with
    | .transportError => ⟨.ok none, cache1.delete location.id, 1, 0⟩
    | .ok jsonResponse =>
      match buildWeatherReport repo.iqAirApiKey createConditionIconsDict net
          jsonResponse with
      | (.error e, airCalls) => ⟨.error e, cache1, 1, airCalls⟩
      | (.ok Option.none, airCalls) =>
        ⟨.ok none, cache1.delete location.id, 1, airCalls⟩
      | (.ok (Option.some r), airCalls) =>
        ⟨.ok (some r), cache1.set now location.id r, 1, airCalls⟩

/- ### Claim-side predicates (phrasings taken from the specification) -/

/-- The claim's phrasing of "non-None, non-empty, and not whitespace-only"
for an optional string, spelled out directly. -/
def nonBlankStr : Option String → Prop
  | Option.none => False
  | Option.some s => s ≠ "" ∧ pyIsSpace s = false

/-- The claim's "the token-exchange response is missing the field `k`, or
the field is empty". -/
def missingOrEmptyField (j : PyVal) (k : String) : Prop :=
  pyContains j k = .ok false ∨ (∃ v, dictGet j k = .ok v ∧ pyLen v = .ok 0)

/-- The claim's "the validate response contains a non-empty
identity-client field": a JSON object whose `client_id` is a non-empty
string. -/
def acceptedValidateResponse (j : PyVal) : Prop :=
  ∃ es s, j = PyVal.dict es ∧
    pyDictLookup es "client_id" = Option.some (PyVal.str s) ∧ s ≠ ""

/-- The claim's "the required field `k` is missing, empty, or
whitespace-only" for a parsed configuration object. -/
def configFieldBad (es : List (String × PyVal)) (k : String) : Prop :=
  pyDictLookup es k = Option.none ∨
  pyDictLookup es k = Option.some PyVal.none ∨
  (∃ s, pyDictLookup es k = Option.some (PyVal.str s) ∧
    (s = "" ∨ pyIsSpace s = true))

/-- The claim's "the configuration is invalid": the auth file is missing or
unparseable, or one of the three required fields is missing, empty or
whitespace-only. -/
def configInvalid : AuthFileInput → Prop
  | .missing => True
  | .unparseable => True
  | .parsed (PyVal.dict es) =>
    configFieldBad es "clientId" ∨ configFieldBad es "clientSecret" ∨
    configFieldBad es "ircAuthToken"
  | .parsed _ => True

/-- A JSON value that is either `null` or a string — the value shapes a
JSON configuration document gives its secret fields. -/
def strOrNoneVal : PyVal → Bool
  | .none => true
  | .str _ => true
  | _ => false

/-- Scope of the configuration claim: the auth file is missing,
unparseable, or parses to a JSON object whose values are strings or
`null`. -/
def configShape : AuthFileInput → Bool
  | .missing => true
  | .unparseable => true
  | .parsed (PyVal.dict es) => es.all (fun p => strOrNoneVal p.2)
  | .parsed _ => false

/- ### Concrete inputs for witnesses and counterexamples -/

/-- Token store holding a pair for each of the handles `"a"`, `"b"`,
`"c"`. -/
def storeABC : TokenStore :=
  { access := fun h =>
      if h == "a" then PyVal.str "ta"
      else if h == "b" then PyVal.str "tb"
      else if h == "c" then PyVal.str "tc"
      else PyVal.none,
    refresh := fun h =>
      if h == "a" then PyVal.str "ra"
      else if h == "b" then PyVal.str "rb"
      else if h == "c" then PyVal.str "rc"
      else PyVal.none }

/-- Identity-service oracle for the isolation scenario: `"a"`'s token is
accepted; `"b"`'s is rejected and its refresh returns a fresh pair; `"c"`'s
is rejected and its refresh returns a malformed body (no `refresh_token`). -/
def netABC : AuthNetwork :=
  { validateResponse := fun t =>
      if t.isStrEq "ta" then
        .ok (PyVal.dict [("client_id", PyVal.str "cid")])
      else .ok (PyVal.dict []),
    tokenResponse := fun t =>
      if t.isStrEq "rb" then
        .ok (PyVal.dict
          [("access_token", PyVal.str "tb2"), ("refresh_token", PyVal.str "rb2")])
      else if t.isStrEq "rc" then
        .ok (PyVal.dict [("access_token", PyVal.str "tc2")])
      else .error .transportError }

/-- A weather report with every numeric field valid and no air-quality
data. -/
def reportA : WeatherReport :=
  { airQuality := PyVal.none, humidity := 50, pressure := 1000,
    temperature := PyVal.int 20, tomorrowsHighTemperature := PyVal.int 25,
    tomorrowsLowTemperature := PyVal.int 15, alerts := [], conditions := [],
    tomorrowsConditions := [] }

/-- Weather repository whose cache holds `reportA` for `"loc1"` inserted at
time 0, with a 90-minute TTL. -/
def repoHit : WeatherRepository :=
  { iqAirApiKey := some "iqkey", cache := ⟨90, [("loc1", 0, reportA)]⟩ }

/-- Weather repository with an empty cache and a 90-minute TTL. -/
def repoMiss : WeatherRepository :=
  { iqAirApiKey := some "iqkey", cache := ⟨90, []⟩ }

/-- Network oracle whose calls all fail with a transport error. -/
def netDown : WeatherNetwork :=
  { weatherResponse := .transportError, airResponse := .transportError }

/-- A 2xx primary response whose JSON body is missing the expected
`current` field (and everything else). -/
def netMalformedBody : WeatherNetwork :=
  { weatherResponse := .ok (PyVal.dict []), airResponse := .transportError }

/-- A well-formed primary response body: current conditions with valid
numbers, and one viable tomorrow entry. -/
def goodWeatherJson : PyVal :=
  PyVal.dict
    [("current", PyVal.dict
        [("sunrise", PyVal.int 100), ("sunset", PyVal.int 200),
         ("humidity", PyVal.int 50), ("pressure", PyVal.int 1000),
         ("temp", PyVal.int 20)]),
     ("daily", PyVal.list
        [PyVal.dict
          [("sunrise", PyVal.int 1540), ("sunset", PyVal.int 1640),
           ("temp", PyVal.dict
             [("max", PyVal.int 25), ("min", PyVal.int 15)])]])]

/-- The fields extracted from `goodWeatherJson`. -/
def goodWeatherFields : WeatherFields :=
  { humidity := PyVal.int 50, pressure := PyVal.int 1000,
    temperature := PyVal.int 20, conditions := [], alerts := [],
    tomorrowsHighTemperature := PyVal.int 25,
    tomorrowsLowTemperature := PyVal.int 15, tomorrowsConditions := [] }

/-- A primary response like `goodWeatherJson` but with a non-finite
humidity value. -/
def badHumidityJson : PyVal :=
  PyVal.dict
    [("current", PyVal.dict
        [("sunrise", PyVal.int 100), ("sunset", PyVal.int 200),
         ("humidity", PyVal.nan), ("pressure", PyVal.int 1000),
         ("temp", PyVal.int 20)]),
     ("daily", PyVal.list
        [PyVal.dict
          [("sunrise", PyVal.int 1540), ("sunset", PyVal.int 1640),
           ("temp", PyVal.dict
             [("max", PyVal.int 25), ("min", PyVal.int 15)])]])]

/-- Primary call succeeds with a well-formed body; air-quality call fails
with a transport error. -/
def netGoodWeatherAirDown : WeatherNetwork :=
  { weatherResponse := .ok goodWeatherJson, airResponse := .transportError }

/-- A valid parsed auth configuration: all three secrets present and
non-blank. -/
def goodAuthJson : AuthFileInput :=
  .parsed (PyVal.dict
    [("clientId", PyVal.str "id1"), ("clientSecret", PyVal.str "sec1"),
     ("ircAuthToken", PyVal.str "irc1")])

/- ### Helper lemmas -/

theorem pyContains_dict (es : List (String × PyVal)) (k : String) :
    pyContains (PyVal.dict es) k = .ok (pyDictLookup es k).isSome := rfl

theorem dictGet_of_lookup (es : List (String × PyVal)) (k : String)
    (v : PyVal) (h : pyDictLookup es k = Option.some v) :
    dictGet (PyVal.dict es) k = .ok v := by
  simp [dictGet, h]

theorem pyContains_true_of_dictGet (j : PyVal) (k : String) (v : PyVal)
    (h : dictGet j k = .ok v) : pyContains j k = .ok true := by
  cases j <;> simp [dictGet] at h
  next es =>
    cases hl : pyDictLookup es k with
    | none => rw [hl] at h; exact absurd h (by simp)
    | some x => simp [pyContains, hl]

theorem TimedDict.lookup_set {V : Type} (c : TimedDict V) (t0 : Int)
    (k : String) (v : V) : (c.set t0 k v).lookup k = Option.some (t0, v) := by
  simp [TimedDict.set, TimedDict.lookup, List.find?]

theorem TimedDict.lookup_delete {V : Type} (c : TimedDict V) (k : String) :
    (c.delete k).lookup k = Option.none := by
  unfold TimedDict.delete TimedDict.lookup
  have h : (c.entries.filter (fun e => e.1 != k)).find? (fun e => e.1 == k) =
      Option.none := by
    rw [List.find?_eq_none]
    intro x hx
    have := (List.mem_filter.mp hx).2
    simpa using this
  rw [h]
  rfl

theorem TimedDict.timeDelta_set {V : Type} (c : TimedDict V) (t0 : Int)
    (k : String) (v : V) : (c.set t0 k v).timeDelta = c.timeDelta := rfl

theorem TimedDict.get_fst_some_snd {V : Type} (d : TimedDict V) (now : Int)
    (k : String) (v : V) (h : (d.get now k).1 = Option.some v) :
    (d.get now k).2 = d := by
  unfold TimedDict.get at h ⊢
  cases hl : d.lookup k with
  | none => simp only [hl]
  | some p =>
    obtain ⟨ins, w⟩ := p
    simp only [hl] at h ⊢
    by_cases hc : d.timeDelta ≤ now - ins
    · rw [if_pos hc] at h; exact absurd h (by simp)
    · rw [if_neg hc]

/- ### C10: Wotd record -/

theorem nonBlankStr_iff (s : Option String) :
    nonBlankStr s ↔ strMalformed s = false := by
  cases s with
  | none => simp [nonBlankStr, strMalformed]
  | some s =>
    have he : s.isEmpty = false ↔ s ≠ "" := by
      rw [Bool.eq_false_iff]
      exact not_congr (String.isEmpty_iff s)
    simp only [nonBlankStr, strMalformed, Bool.or_eq_false_iff]
    rw [he]

/-- **C10**: for every successfully constructed `Wotd` record,
`hasExamples` is true iff both examples supplied at construction are
non-`None`, non-empty and not whitespace-only; construction succeeds iff
both `word` and `definition` are non-blank, and then `getWord` and
`getDefinition` return them, never blank. -/
theorem wotd_hasExamples_and_construction
    (d e f w : Option String) :
    ((∃ r, Wotd.init d e f w = .ok r) ↔ (nonBlankStr d ∧ nonBlankStr w)) ∧
    (∀ r, Wotd.init d e f w = .ok r →
      (r.hasExamples = true ↔ (nonBlankStr e ∧ nonBlankStr f)) ∧
      nonBlankStr r.getWord ∧ nonBlankStr r.getDefinition) := by
  constructor
  · constructor
    · rintro ⟨r, hr⟩
      unfold Wotd.init at hr
      by_cases hd : strMalformed d
      · simp [hd] at hr
      · by_cases hw : strMalformed w
        · simp [hd, hw] at hr
        · simp only [Bool.not_eq_true] at hd hw
          exact ⟨(nonBlankStr_iff d).mpr hd, (nonBlankStr_iff w).mpr hw⟩
    · rintro ⟨hd, hw⟩
      refine ⟨⟨d, e, f, w⟩, ?_⟩
      unfold Wotd.init
      rw [(nonBlankStr_iff d).mp hd, (nonBlankStr_iff w).mp hw]
      rfl
  · intro r hr
    unfold Wotd.init at hr
    by_cases hd : strMalformed d
    · simp [hd] at hr
    · by_cases hw : strMalformed w
      · simp [hd, hw] at hr
      · simp only [hd, hw, Bool.false_eq_true, if_false] at hr
        cases hr
        refine ⟨?_, ?_, ?_⟩
        · simp only [Wotd.hasExamples, Bool.and_eq_true, Bool.not_eq_true']
          rw [nonBlankStr_iff, nonBlankStr_iff]
        · exact (nonBlankStr_iff w).mpr (by simpa using hw)
        · exact (nonBlankStr_iff d).mpr (by simpa using hd)

/-- Witness for C10 at a concrete input: construction succeeds for
non-blank word/definition and the `hasExamples` characterisation holds at
the constructed record. -/
theorem wotd_hasExamples_and_construction_witness :
    Wotd.init (some "a word") (some "eg") (some "fg") (some "w") =
      .ok ⟨some "a word", some "eg", some "fg", some "w"⟩ ∧
    ((Wotd.hasExamples ⟨some "a word", some "eg", some "fg", some "w"⟩ = true) ↔
      (nonBlankStr (some "eg") ∧ nonBlankStr (some "fg"))) :=
  ⟨by rfl,
   ((wotd_hasExamples_and_construction (some "a word") (some "eg") (some "fg")
      (some "w")).2 ⟨some "a word", some "eg", some "fg", some "w"⟩ (by rfl)).1⟩

/- ### C4: TTL cache semantics -/

/-- **C4**: with a 90-minute TTL, a value stored under a key at `t0` is
returned unchanged by `get` exactly while `now - t0 < 90` (in particular at
`t0+89`), and a lookup at or past the TTL (in particular at `t0+91`)
returns absent and removes the expired entry (lazy eviction). -/
theorem cache_ttl_scenario {V : Type} (c : TimedDict V) (k : String) (v : V)
    (t0 now : Int) (h : c.timeDelta = 90) :
    (((c.set t0 k v).get now k).1 =
      if now - t0 < 90 then Option.some v else Option.none) ∧
    (90 ≤ now - t0 → ((c.set t0 k v).get now k).2.lookup k = Option.none) := by
  have hl := TimedDict.lookup_set c t0 k v
  have hd : (c.set t0 k v).timeDelta = 90 := by
    rw [TimedDict.timeDelta_set, h]
  constructor
  · simp only [TimedDict.get, hl, hd]
    by_cases hc : (90 : Int) ≤ now - t0
    · rw [if_pos hc, if_neg (by omega)]
    · rw [if_neg hc, if_pos (by omega)]
  · intro hge
    simp only [TimedDict.get, hl, hd, if_pos hge]
    exact TimedDict.lookup_delete _ k

/-- Witness for C4: a `reportA`-like value stored at `t0 = 0` in a
90-minute cache is returned at minute 89, absent at minute 91, and the
expired entry is physically removed on that access. -/
theorem cache_ttl_scenario_witness :
    (TimedDict.timeDelta (V := Nat) ⟨90, []⟩ = 90) ∧
    (((TimedDict.set (V := Nat) ⟨90, []⟩ 0 "loc1" 7).get 89 "loc1").1 =
      Option.some 7) ∧
    (((TimedDict.set (V := Nat) ⟨90, []⟩ 0 "loc1" 7).get 91 "loc1").1 =
      Option.none) ∧
    (((TimedDict.set (V := Nat) ⟨90, []⟩ 0 "loc1" 7).get 91 "loc1").2.lookup
      "loc1" = Option.none) :=
  ⟨rfl,
   by rw [(cache_ttl_scenario ⟨90, []⟩ "loc1" 7 0 89 rfl).1]; norm_num,
   by rw [(cache_ttl_scenario ⟨90, []⟩ "loc1" 7 0 91 rfl).1]; norm_num,
   (cache_ttl_scenario ⟨90, []⟩ "loc1" 7 0 91 rfl).2 (by norm_num)⟩

/- ### C8: cache-hit frame property -/

/-- **C8**: on a fresh (unexpired) cache entry, `fetchWeather` returns the
cached record immediately, issues no HTTP call to either upstream endpoint,
and leaves the cache exactly as it was (no write, no eviction, for any
key). -/
theorem fetchWeather_cache_hit (repo : WeatherRepository) (now : Int)
    (location : Location) (net : WeatherNetwork) (v : WeatherReport)
    (h : (repo.cache.get now location.id).1 = Option.some v) :
    fetchWeather repo now location net =
      ⟨.ok (Option.some v), repo.cache, 0, 0⟩ := by
  have h2 := TimedDict.get_fst_some_snd repo.cache now location.id v h
  have hp : repo.cache.get now location.id = (Option.some v, repo.cache) :=
    Prod.ext h h2
  unfold fetchWeather
  rw [hp]

/-- Witness for C8: a repository whose cache holds `reportA` for `"loc1"`
inserted at minute 0, queried at minute 10 with a network that would fail
every call: the cached record is returned, no call is made, the cache is
untouched. -/
theorem fetchWeather_cache_hit_witness :
    (repoHit.cache.get 10 "loc1").1 = Option.some reportA ∧
    fetchWeather repoHit 10 ⟨"loc1"⟩ netDown =
      ⟨.ok (Option.some reportA), repoHit.cache, 0, 0⟩ :=
  ⟨by rfl, fetchWeather_cache_hit repoHit 10 ⟨"loc1"⟩ netDown reportA (by rfl)⟩

/- ### Auth helper lemmas -/

theorem string_length_eq_zero_iff (s : String) : s.length = 0 ↔ s = "" := by
  cases s with
  | mk data =>
    constructor
    · intro h
      have hd : data = [] := List.length_eq_zero.mp h
      rw [hd]
    · intro h
      rw [h]
      rfl

theorem bindOk {α β : Type} (a : α) (f : α → Except PyErr β) :
    (Bind.bind (Except.ok a) f) = f a := rfl

theorem bindError {α β : Type} (e : PyErr) (f : α → Except PyErr β) :
    (Bind.bind (Except.error e) f : Except PyErr β) = Except.error e := rfl

theorem pureOk {α : Type} (a : α) :
    (Pure.pure a : Except PyErr α) = Except.ok a := rfl

theorem throwEq {α : Type} (e : PyErr) :
    (throw e : Except PyErr α) = Except.error e := rfl

theorem mapOkEq {α β : Type} (f : α → β) (a : α) :
    (Functor.map f (Except.ok a : Except PyErr α)) = Except.ok (f a) := rfl

theorem mapErrorEq {α β : Type} (f : α → β) (e : PyErr) :
    (Functor.map f (Except.error e : Except PyErr α)) = Except.error e := rfl

theorem pyNotInOrEmptyLen_of_missingOrEmpty (j : PyVal) (k : String)
    (h : missingOrEmptyField j k) : pyNotInOrEmptyLen j k = .ok true := by
  rcases h with hc | ⟨v, hg, hl⟩
  · simp [pyNotInOrEmptyLen, hc, bindOk, Pure.pure, Except.pure]
  · have hc := pyContains_true_of_dictGet j k v hg
    simp [pyNotInOrEmptyLen, hc, hg, hl, bindOk, Pure.pure, Except.pure]

theorem pyNotInOrEmptyLen_accepted (j : PyVal)
    (h : acceptedValidateResponse j) :
    pyNotInOrEmptyLen j "client_id" = .ok false := by
  obtain ⟨es, s, rfl, hl, hs⟩ := h
  have hlen : (s.length == 0) = false := by
    rw [beq_eq_false_iff_ne]
    intro hc
    exact hs ((string_length_eq_zero_iff s).mp hc)
  simp [pyNotInOrEmptyLen, pyContains, hl, dictGet_of_lookup es _ _ hl,
    pyLen, bindOk, Pure.pure, Except.pure, hlen]

theorem refreshAccessToken_ok (net : AuthNetwork) (store : TokenStore)
    (handle : String) (j a r : PyVal)
    (hresp : net.tokenResponse (store.refresh handle) = .ok j)
    (hA : pyNotInOrEmptyLen j "access_token" = .ok false)
    (hR : pyNotInOrEmptyLen j "refresh_token" = .ok false)
    (hGa : dictGet j "access_token" = .ok a)
    (hGr : dictGet j "refresh_token" = .ok r) :
    refreshAccessToken net store handle = .ok (store.setTokens handle a r) := by
  simp [refreshAccessToken, hresp, hA, hR, hGa, hGr, bindOk, Pure.pure,
    Except.pure]

theorem refreshAccessToken_fails (net : AuthNetwork) (store : TokenStore)
    (handle : String) (j : PyVal)
    (hresp : net.tokenResponse (store.refresh handle) = .ok j)
    (hbad : missingOrEmptyField j "access_token" ∨
      missingOrEmptyField j "refresh_token") :
    ∃ e, refreshAccessToken net store handle = .error e := by
  rcases hbad with hb | hb
  · have hA := pyNotInOrEmptyLen_of_missingOrEmpty j "access_token" hb
    exact ⟨.valueError,
      by simp [refreshAccessToken, hresp, hA, bindOk, throwEq]⟩
  · have hR := pyNotInOrEmptyLen_of_missingOrEmpty j "refresh_token" hb
    cases hA : pyNotInOrEmptyLen j "access_token" with
    | error e =>
      exact ⟨e, by simp [refreshAccessToken, hresp, hA, bindOk, bindError]⟩
    | ok b =>
      cases b with
      | true =>
        exact ⟨.valueError,
          by simp [refreshAccessToken, hresp, hA, bindOk, throwEq]⟩
      | false =>
        exact ⟨.valueError,
          by simp [refreshAccessToken, hresp, hA, hR, bindOk, throwEq]⟩

/- ### C2: refresh atomicity -/

/-- **C2**: when the token-exchange response is missing `access_token` or
`refresh_token`, or either field is empty, the refresh operation fails for
that principal (raises) and the Token Store's previously stored pair is
unchanged after the batch call — `setTokens` is never invoked with a
partial pair. -/
theorem refresh_atomicity (net : AuthNetwork) (store : TokenStore) (u : User)
    (j : PyVal)
    (hresp : net.tokenResponse (store.refresh u.handle) = .ok j)
    (hbad : missingOrEmptyField j "access_token" ∨
      missingOrEmptyField j "refresh_token") :
    (∃ e, refreshAccessToken net store u.handle = .error e) ∧
    (validateAndRefreshAccessTokens net (some [u]) store).store = store := by
  have hfail := refreshAccessToken_fails net store u.handle j hresp hbad
  refine ⟨hfail, ?_⟩
  obtain ⟨e, he⟩ := hfail
  have hloop : (validateLoop net [u] store 0).store = store := by
    cases hn : (store.access u.handle).isNone with
    | true => simp [validateLoop, hn]
    | false =>
      cases hv : net.validateResponse (store.access u.handle) with
      | error e2 => simp [validateLoop, hn, hv]
      | ok jv =>
        cases hc : pyNotInOrEmptyLen jv "client_id" with
        | error e2 => simp [validateLoop, hn, hv, hc]
        | ok b =>
          cases b with
          | false => simp [validateLoop, hn, hv, hc]
          | true => simp [validateLoop, hn, hv, hc, he]
  have htop : validateAndRefreshAccessTokens net (some [u]) store =
      validateLoop net [u] store 0 := by
    simp [validateAndRefreshAccessTokens]
  rw [htop]
  exact hloop

/-- Witness for C2: principal `"c"` whose token-exchange response lacks
`refresh_token`: the refresh raises and the batch leaves the store
untouched. -/
theorem refresh_atomicity_witness :
    netABC.tokenResponse (storeABC.refresh "c") =
      .ok (PyVal.dict [("access_token", PyVal.str "tc2")]) ∧
    (∃ e, refreshAccessToken netABC storeABC "c" = .error e) ∧
    (validateAndRefreshAccessTokens netABC (some [⟨"c"⟩]) storeABC).store =
      storeABC :=
  ⟨by rfl,
   (refresh_atomicity netABC storeABC ⟨"c"⟩
     (PyVal.dict [("access_token", PyVal.str "tc2")]) (by rfl)
     (Or.inr (Or.inl (by rfl)))).1,
   (refresh_atomicity netABC storeABC ⟨"c"⟩
     (PyVal.dict [("access_token", PyVal.str "tc2")]) (by rfl)
     (Or.inr (Or.inl (by rfl)))).2⟩

/- ### C5: idempotence on valid tokens -/

/-- **C5**: when a principal's access token is accepted (the validate
response is a JSON object with a non-empty `client_id`), the cycle performs
no refresh call and no Token Store write for that principal, and running
the cycle twice in a row triggers no refresh call on the second invocation
either. -/
theorem validate_idempotent_on_valid (net : AuthNetwork) (store : TokenStore)
    (u : User) (j : PyVal)
    (htok : (store.access u.handle).isNone = false)
    (hresp : net.validateResponse (store.access u.handle) = .ok j)
    (hacc : acceptedValidateResponse j) :
    validateAndRefreshAccessTokens net (some [u]) store =
      ⟨store, 0, none⟩ ∧
    validateAndRefreshAccessTokens net (some [u])
      (validateAndRefreshAccessTokens net (some [u]) store).store =
      ⟨store, 0, none⟩ := by
  have hc := pyNotInOrEmptyLen_accepted j hacc
  have h1 : validateAndRefreshAccessTokens net (some [u]) store =
      ⟨store, 0, none⟩ := by
    have htop : validateAndRefreshAccessTokens net (some [u]) store =
        validateLoop net [u] store 0 := by
      simp [validateAndRefreshAccessTokens]
    rw [htop]
    simp [validateLoop, htok, hresp, hc]
  refine ⟨h1, ?_⟩
  rw [h1]
  exact h1

/-- Witness for C5: principal `"a"` whose token the validate endpoint
accepts: both invocations leave the store untouched and perform zero
refresh calls. -/
theorem validate_idempotent_on_valid_witness :
    (storeABC.access "a").isNone = false ∧
    netABC.validateResponse (storeABC.access "a") =
      .ok (PyVal.dict [("client_id", PyVal.str "cid")]) ∧
    validateAndRefreshAccessTokens netABC (some [⟨"a"⟩]) storeABC =
      ⟨storeABC, 0, none⟩ ∧
    validateAndRefreshAccessTokens netABC (some [⟨"a"⟩])
      (validateAndRefreshAccessTokens netABC (some [⟨"a"⟩]) storeABC).store =
      ⟨storeABC, 0, none⟩ :=
  ⟨by rfl, by rfl,
   (validate_idempotent_on_valid netABC storeABC ⟨"a"⟩
     (PyVal.dict [("client_id", PyVal.str "cid")]) (by rfl) (by rfl)
     ⟨[("client_id", PyVal.str "cid")], "cid", rfl, rfl, by decide⟩).1,
   (validate_idempotent_on_valid netABC storeABC ⟨"a"⟩
     (PyVal.dict [("client_id", PyVal.str "cid")]) (by rfl) (by rfl)
     ⟨[("client_id", PyVal.str "cid")], "cid", rfl, rfl, by decide⟩).2⟩

/- ### C1: batch isolation -/

/-- Counterexample to C1 as stated: for principals A (token accepted),
B (token rejected, refresh succeeds) and C (token rejected, refresh
returns a malformed body without `refresh_token`), the batch call does
not return normally — the `ValueError` raised while refreshing C escapes
`validateAndRefreshAccessTokens`. -/
theorem batch_isolation_counterexample :
    (validateAndRefreshAccessTokens netABC (some [⟨"a"⟩, ⟨"b"⟩, ⟨"c"⟩])
      storeABC).err = some PyErr.valueError := by rfl

/-- **C1 (amended)**: in the A/B/C scenario the per-principal outcomes up
to the failure are as claimed — A's pair unchanged, B's pair replaced by
the new tokens, C's pair unchanged — but the failure is not isolated: the
exception raised while refreshing C escapes the batch call (aborting any
principal after the failing one). -/
theorem batch_abort_on_refresh_failure (net : AuthNetwork)
    (store : TokenStore) (a b c : User) (ja jb jrb aB rB jc jrc : PyVal)
    (hab : (a.handle == b.handle) = false)
    (hcb : (c.handle == b.handle) = false)
    (haTok : (store.access a.handle).isNone = false)
    (haResp : net.validateResponse (store.access a.handle) = .ok ja)
    (haAcc : acceptedValidateResponse ja)
    (hbTok : (store.access b.handle).isNone = false)
    (hbResp : net.validateResponse (store.access b.handle) = .ok jb)
    (hbRej : pyNotInOrEmptyLen jb "client_id" = .ok true)
    (hbTokResp : net.tokenResponse (store.refresh b.handle) = .ok jrb)
    (hbA : pyNotInOrEmptyLen jrb "access_token" = .ok false)
    (hbR : pyNotInOrEmptyLen jrb "refresh_token" = .ok false)
    (hbGa : dictGet jrb "access_token" = .ok aB)
    (hbGr : dictGet jrb "refresh_token" = .ok rB)
    (hcTok : (store.access c.handle).isNone = false)
    (hcResp : net.validateResponse (store.access c.handle) = .ok jc)
    (hcRej : pyNotInOrEmptyLen jc "client_id" = .ok true)
    (hcTokResp : net.tokenResponse (store.refresh c.handle) = .ok jrc)
    (hcBad : missingOrEmptyField jrc "access_token" ∨
      missingOrEmptyField jrc "refresh_token") :
    (∃ e, (validateAndRefreshAccessTokens net (some [a, b, c]) store).err =
      some e) ∧
    (validateAndRefreshAccessTokens net (some [a, b, c]) store).store.access
      a.handle = store.access a.handle ∧
    (validateAndRefreshAccessTokens net (some [a, b, c]) store).store.refresh
      a.handle = store.refresh a.handle ∧
    (validateAndRefreshAccessTokens net (some [a, b, c]) store).store.access
      b.handle = aB ∧
    (validateAndRefreshAccessTokens net (some [a, b, c]) store).store.refresh
      b.handle = rB ∧
    (validateAndRefreshAccessTokens net (some [a, b, c]) store).store.access
      c.handle = store.access c.handle ∧
    (validateAndRefreshAccessTokens net (some [a, b, c]) store).store.refresh
      c.handle = store.refresh c.handle := by
  have hca := pyNotInOrEmptyLen_accepted ja haAcc
  have hrefb := refreshAccessToken_ok net store b.handle jrb aB rB hbTokResp
    hbA hbR hbGa hbGr
  have hcb' : c.handle ≠ b.handle := beq_eq_false_iff_ne.mp hcb
  have hab' : a.handle ≠ b.handle := beq_eq_false_iff_ne.mp hab
  have hacc2 : (store.setTokens b.handle aB rB).access c.handle =
      store.access c.handle := by
    simp [TokenStore.setTokens]
    intro heq
    exact absurd heq hcb'
  have href2 : (store.setTokens b.handle aB rB).refresh c.handle =
      store.refresh c.handle := by
    simp [TokenStore.setTokens]
    intro heq
    exact absurd heq hcb'
  obtain ⟨e, he⟩ := refreshAccessToken_fails net
    (store.setTokens b.handle aB rB) c.handle jrc
    (by rw [href2]; exact hcTokResp) hcBad
  have hrun : validateAndRefreshAccessTokens net (some [a, b, c]) store =
      ⟨store.setTokens b.handle aB rB, 2, some e⟩ := by
    have htop : validateAndRefreshAccessTokens net (some [a, b, c]) store =
        validateLoop net [a, b, c] store 0 := by
      simp [validateAndRefreshAccessTokens]
    rw [htop]
    have hstepA : validateLoop net [a, b, c] store 0 =
        validateLoop net [b, c] store 0 := by
      simp [validateLoop, haTok, haResp, hca]
    rw [hstepA]
    have hstepB : validateLoop net [b, c] store 0 =
        validateLoop net [c] (store.setTokens b.handle aB rB) 1 := by
      simp [validateLoop, hbTok, hbResp, hbRej, hrefb]
    rw [hstepB]
    simp [validateLoop, hacc2, hcTok, hcResp, hcRej, he]
  rw [hrun]
  refine ⟨⟨e, rfl⟩, ?_, ?_, ?_, ?_, ?_, ?_⟩
  · simp [TokenStore.setTokens]
    intro heq
    exact absurd heq hab'
  · simp [TokenStore.setTokens]
    intro heq
    exact absurd heq hab'
  · simp [TokenStore.setTokens]
  · simp [TokenStore.setTokens]
  · exact hacc2
  · exact href2

/-- Witness for the amended C1 at the concrete A/B/C scenario: B's pair is
updated to the new tokens while A's and C's pairs are untouched. -/
theorem batch_abort_on_refresh_failure_witness :
    (validateAndRefreshAccessTokens netABC (some [⟨"a"⟩, ⟨"b"⟩, ⟨"c"⟩])
      storeABC).store.access "a" = storeABC.access "a" ∧
    (validateAndRefreshAccessTokens netABC (some [⟨"a"⟩, ⟨"b"⟩, ⟨"c"⟩])
      storeABC).store.access "b" = PyVal.str "tb2" ∧
    (validateAndRefreshAccessTokens netABC (some [⟨"a"⟩, ⟨"b"⟩, ⟨"c"⟩])
      storeABC).store.refresh "b" = PyVal.str "rb2" ∧
    (validateAndRefreshAccessTokens netABC (some [⟨"a"⟩, ⟨"b"⟩, ⟨"c"⟩])
      storeABC).store.access "c" = storeABC.access "c" ∧
    (validateAndRefreshAccessTokens netABC (some [⟨"a"⟩, ⟨"b"⟩, ⟨"c"⟩])
      storeABC).store.refresh "c" = storeABC.refresh "c" := by
  obtain ⟨-, h2, -, h4, h5, h6, h7⟩ :=
    batch_abort_on_refresh_failure netABC storeABC ⟨"a"⟩ ⟨"b"⟩ ⟨"c"⟩
      (PyVal.dict [("client_id", PyVal.str "cid")]) (PyVal.dict [])
      (PyVal.dict
        [("access_token", PyVal.str "tb2"), ("refresh_token", PyVal.str "rb2")])
      (PyVal.str "tb2") (PyVal.str "rb2") (PyVal.dict [])
      (PyVal.dict [("access_token", PyVal.str "tc2")])
      (by rfl) (by rfl) (by rfl) (by rfl)
      ⟨[("client_id", PyVal.str "cid")], "cid", rfl, rfl, by decide⟩
      (by rfl) (by rfl) (by rfl) (by rfl) (by rfl) (by rfl) (by rfl) (by rfl)
      (by rfl) (by rfl) (by rfl) (by rfl)
      (Or.inr (Or.inl (by rfl)))
  exact ⟨h2, h4, h5, h6, h7⟩

/- ### C9: AuthHelper construction -/

theorem pyStrMalformedCheck_str (s : String) :
    pyStrMalformedCheck (PyVal.str s) =
      .ok (if s = "" then true else pyIsSpace s) := by
  by_cases h : s = ""
  · subst h
    rfl
  · have hl : (s.length == 0) = false := beq_eq_false_iff_ne.mpr
      (fun hc => h ((string_length_eq_zero_iff s).mp hc))
    simp [pyStrMalformedCheck, PyVal.isNone, pyLen, hl, h, bindOk, bindError, mapOkEq, mapErrorEq,
      Pure.pure, Except.pure]
    intro hc
    exact absurd ((string_length_eq_zero_iff s).mp hc) h

theorem authHelper_init_parsed_dict (authFile : Option String)
    (hfile : strMalformed authFile = false) (es : List (String × PyVal)) :
    AuthHelper.init authFile (.parsed (PyVal.dict es)) =
      (match pyDictLookup es "clientId" with
      | Option.none => .error .valueError
      | Option.some v1 =>
        match pyDictLookup es "clientSecret" with
        | Option.none => .error .valueError
        | Option.some v2 =>
          match pyDictLookup es "ircAuthToken" with
          | Option.none => .error .valueError
          | Option.some v3 =>
            match pyStrMalformedCheck v1 with
            | .error e => .error e
            | .ok true => .error .valueError
            | .ok false =>
              match pyStrMalformedCheck v2 with
              | .error e => .error e
              | .ok true => .error .valueError
              | .ok false =>
                match pyStrMalformedCheck v3 with
                | .error e => .error e
                | .ok true => .error .valueError
                | .ok false => .ok ⟨v1, v2, v3⟩) := by
  have hsimp : readJson (.parsed (PyVal.dict es)) = .ok (PyVal.dict es) := rfl
  cases h1 : pyDictLookup es "clientId" with
  | none =>
    simp [AuthHelper.init, hfile, hsimp, pyContains, h1, bindOk, bindError, mapOkEq, mapErrorEq, throwEq,
      Pure.pure, Except.pure]
  | some v1 =>
    have hg1 := dictGet_of_lookup es "clientId" v1 h1
    cases h2 : pyDictLookup es "clientSecret" with
    | none =>
      simp [AuthHelper.init, hfile, hsimp, pyContains, h1, h2, hg1, bindOk, bindError, mapOkEq, mapErrorEq,
        throwEq, Pure.pure, Except.pure]
    | some v2 =>
      have hg2 := dictGet_of_lookup es "clientSecret" v2 h2
      cases h3 : pyDictLookup es "ircAuthToken" with
      | none =>
        simp [AuthHelper.init, hfile, hsimp, pyContains, h1, h2, h3, hg1,
          hg2, bindOk, bindError, mapOkEq, mapErrorEq, throwEq, Pure.pure, Except.pure]
      | some v3 =>
        have hg3 := dictGet_of_lookup es "ircAuthToken" v3 h3
        cases hm1 : pyStrMalformedCheck v1 with
        | error e =>
          simp [AuthHelper.init, hfile, hsimp, pyContains, h1, h2, h3, hg1,
            hg2, hg3, hm1, bindOk, bindError, mapOkEq, mapErrorEq, throwEq, Pure.pure, Except.pure]
        | ok b1 =>
          cases b1 with
          | true =>
            simp [AuthHelper.init, hfile, hsimp, pyContains, h1, h2, h3, hg1,
              hg2, hg3, hm1, bindOk, bindError, mapOkEq, mapErrorEq, throwEq, Pure.pure, Except.pure]
          | false =>
            cases hm2 : pyStrMalformedCheck v2 with
            | error e =>
              simp [AuthHelper.init, hfile, hsimp, pyContains, h1, h2, h3,
                hg1, hg2, hg3, hm1, hm2, bindOk, bindError, mapOkEq, mapErrorEq, throwEq,
                Pure.pure, Except.pure]
            | ok b2 =>
              cases b2 with
              | true =>
                simp [AuthHelper.init, hfile, hsimp, pyContains, h1, h2, h3,
                  hg1, hg2, hg3, hm1, hm2, bindOk, bindError, mapOkEq, mapErrorEq, throwEq, Pure.pure,
                  Except.pure]
              | false =>
                cases hm3 : pyStrMalformedCheck v3 with
                | error e =>
                  simp [AuthHelper.init, hfile, hsimp, pyContains, h1, h2,
                    h3, hg1, hg2, hg3, hm1, hm2, hm3, bindOk, bindError, mapOkEq, mapErrorEq,
                    throwEq, Pure.pure, Except.pure]
                | ok b3 =>
                  cases b3 with
                  | true =>
                    simp [AuthHelper.init, hfile, hsimp, pyContains, h1, h2,
                      h3, hg1, hg2, hg3, hm1, hm2, hm3, bindOk, bindError, mapOkEq, mapErrorEq, throwEq,
                      Pure.pure, Except.pure]
                  | false =>
                    simp [AuthHelper.init, hfile, hsimp, pyContains, h1, h2,
                      h3, hg1, hg2, hg3, hm1, hm2, hm3, bindOk, bindError, mapOkEq, mapErrorEq, throwEq,
                      Pure.pure, Except.pure]

theorem strOrNoneVal_cases (v : PyVal) (h : strOrNoneVal v = true) :
    v = PyVal.none ∨ ∃ s, v = PyVal.str s := by
  cases v with
  | none => exact Or.inl rfl
  | str s => exact Or.inr ⟨s, rfl⟩
  | bool b => simp [strOrNoneVal] at h
  | int n => simp [strOrNoneVal] at h
  | nan => simp [strOrNoneVal] at h
  | inf => simp [strOrNoneVal] at h
  | list l => simp [strOrNoneVal] at h
  | dict es => simp [strOrNoneVal] at h

theorem strOrNone_of_lookup (es : List (String × PyVal)) (k : String)
    (v : PyVal) (hall : es.all (fun p => strOrNoneVal p.2) = true)
    (h : pyDictLookup es k = Option.some v) : strOrNoneVal v = true := by
  unfold pyDictLookup at h
  cases hf : es.find? (fun p => p.1 == k) with
  | none => rw [hf] at h; exact absurd h (by simp)
  | some p =>
    rw [hf] at h
    have hp : p.2 = v := by simpa using h
    have hmem := List.mem_of_find?_eq_some hf
    have := List.all_eq_true.mp hall p hmem
    rw [← hp]
    exact this

theorem configField_analysis (es : List (String × PyVal)) (k : String)
    (v : PyVal) (hv : strOrNoneVal v = true)
    (h1 : pyDictLookup es k = Option.some v) :
    ∃ b, pyStrMalformedCheck v = .ok b ∧ (configFieldBad es k ↔ b = true) ∧
      (b = false → ∃ s, v = PyVal.str s ∧ s ≠ "" ∧ pyIsSpace s = false) := by
  rcases strOrNoneVal_cases v hv with rfl | ⟨s, rfl⟩
  · refine ⟨true, rfl, ?_, by simp⟩
    exact iff_of_true (Or.inr (Or.inl h1)) rfl
  · refine ⟨if s = "" then true else pyIsSpace s, pyStrMalformedCheck_str s,
      ?_, ?_⟩
    · constructor
      · rintro (hb | hb | ⟨s', hs', hbad⟩)
        · rw [h1] at hb; exact absurd hb (by simp)
        · rw [h1] at hb; simp at hb
        · rw [h1] at hs'
          have hss : s = s' := by
            have := Option.some.inj hs'
            injection this
          subst hss
          rcases hbad with hse | hsp
          · rw [if_pos hse]
          · by_cases hse : s = ""
            · rw [if_pos hse]
            · rw [if_neg hse]; exact hsp
      · intro hb
        by_cases hse : s = ""
        · exact Or.inr (Or.inr ⟨s, h1, Or.inl hse⟩)
        · rw [if_neg hse] at hb
          exact Or.inr (Or.inr ⟨s, h1, Or.inr hb⟩)
    · intro hb
      by_cases hse : s = ""
      · rw [if_pos hse] at hb; exact absurd hb (by simp)
      · rw [if_neg hse] at hb
        exact ⟨s, rfl, hse, hb⟩

/-- **C9**: for a well-formed `authFile` argument and a configuration file
within the claim's scope (missing, unparseable, or parsed to a JSON object
whose values are strings or `null`), `AuthHelper` construction raises iff
the configuration is invalid — the file is missing or unparseable, or one
of `clientId`, `clientSecret`, `ircAuthToken` is missing, empty or
whitespace-only — and on success the three accessors return exactly the
configured non-blank strings. -/
theorem authHelper_construction (authFile : Option String)
    (file : AuthFileInput)
    (hfile : strMalformed authFile = false)
    (hshape : configShape file = true) :
    ((∃ e, AuthHelper.init authFile file = .error e) ↔ configInvalid file) ∧
    (∀ a, AuthHelper.init authFile file = .ok a →
      ∃ es, file = .parsed (PyVal.dict es) ∧
        pyDictLookup es "clientId" = Option.some a.getClientId ∧
        pyDictLookup es "clientSecret" = Option.some a.getClientSecret ∧
        pyDictLookup es "ircAuthToken" = Option.some a.getIrcAuthToken ∧
        (∃ s, a.getClientId = PyVal.str s ∧ s ≠ "" ∧ pyIsSpace s = false) ∧
        (∃ s, a.getClientSecret = PyVal.str s ∧ s ≠ "" ∧ pyIsSpace s = false) ∧
        (∃ s, a.getIrcAuthToken = PyVal.str s ∧ s ≠ "" ∧
          pyIsSpace s = false)) := by
  cases file with
  | missing =>
    have hini : AuthHelper.init authFile .missing = .error .fileNotFoundError := by
      simp [AuthHelper.init, hfile, readJson, bindError, bindOk, mapOkEq,
        mapErrorEq, throwEq, Pure.pure, Except.pure]
    refine ⟨iff_of_true ⟨_, hini⟩ trivial, ?_⟩
    intro a ha
    rw [hini] at ha
    exact absurd ha (by simp)
  | unparseable =>
    have hini : AuthHelper.init authFile .unparseable =
        .error .jsonDecodeError := by
      simp [AuthHelper.init, hfile, readJson, bindError, bindOk, mapOkEq,
        mapErrorEq, throwEq, Pure.pure, Except.pure]
    refine ⟨iff_of_true ⟨_, hini⟩ trivial, ?_⟩
    intro a ha
    rw [hini] at ha
    exact absurd ha (by simp)
  | parsed v =>
    cases v with
    | none => simp [configShape] at hshape
    | bool b => simp [configShape] at hshape
    | int n => simp [configShape] at hshape
    | nan => simp [configShape] at hshape
    | inf => simp [configShape] at hshape
    | str s => simp [configShape] at hshape
    | list l => simp [configShape] at hshape
    | dict es =>
      have hall : es.all (fun p => strOrNoneVal p.2) = true := hshape
      have hchar := authHelper_init_parsed_dict authFile hfile es
      cases h1 : pyDictLookup es "clientId" with
      | none =>
        simp only [h1] at hchar
        refine ⟨iff_of_true ⟨_, hchar⟩ (Or.inl (Or.inl h1)), ?_⟩
        intro a ha
        rw [hchar] at ha
        exact absurd ha (by simp)
      | some v1 =>
        have hv1 := strOrNone_of_lookup es "clientId" v1 hall h1
        obtain ⟨b1, hm1, hiff1, hok1⟩ := configField_analysis es "clientId" v1 hv1 h1
        cases h2 : pyDictLookup es "clientSecret" with
        | none =>
          simp only [h1, h2] at hchar
          refine ⟨iff_of_true ⟨_, hchar⟩ (Or.inr (Or.inl (Or.inl h2))), ?_⟩
          intro a ha
          rw [hchar] at ha
          exact absurd ha (by simp)
        | some v2 =>
          have hv2 := strOrNone_of_lookup es "clientSecret" v2 hall h2
          obtain ⟨b2, hm2, hiff2, hok2⟩ :=
            configField_analysis es "clientSecret" v2 hv2 h2
          cases h3 : pyDictLookup es "ircAuthToken" with
          | none =>
            simp only [h1, h2, h3] at hchar
            refine ⟨iff_of_true ⟨_, hchar⟩
              (Or.inr (Or.inr (Or.inl h3))), ?_⟩
            intro a ha
            rw [hchar] at ha
            exact absurd ha (by simp)
          | some v3 =>
            have hv3 := strOrNone_of_lookup es "ircAuthToken" v3 hall h3
            obtain ⟨b3, hm3, hiff3, hok3⟩ :=
              configField_analysis es "ircAuthToken" v3 hv3 h3
            cases b1 with
            | true =>
              simp only [h1, h2, h3, hm1] at hchar
              refine ⟨iff_of_true ⟨_, hchar⟩ (Or.inl (hiff1.mpr rfl)), ?_⟩
              intro a ha
              rw [hchar] at ha
              exact absurd ha (by simp)
            | false =>
              cases b2 with
              | true =>
                simp only [h1, h2, h3, hm1, hm2] at hchar
                refine ⟨iff_of_true ⟨_, hchar⟩
                  (Or.inr (Or.inl (hiff2.mpr rfl))), ?_⟩
                intro a ha
                rw [hchar] at ha
                exact absurd ha (by simp)
              | false =>
                cases b3 with
                | true =>
                  simp only [h1, h2, h3, hm1, hm2, hm3] at hchar
                  refine ⟨iff_of_true ⟨_, hchar⟩
                    (Or.inr (Or.inr (hiff3.mpr rfl))), ?_⟩
                  intro a ha
                  rw [hchar] at ha
                  exact absurd ha (by simp)
                | false =>
                  simp only [h1, h2, h3, hm1, hm2, hm3] at hchar
                  constructor
                  · refine iff_of_false ?_ ?_
                    · rintro ⟨e, he⟩
                      rw [hchar] at he
                      exact absurd he (by simp)
                    · rintro (hb | hb | hb)
                      · exact absurd (hiff1.mp hb) (by simp)
                      · exact absurd (hiff2.mp hb) (by simp)
                      · exact absurd (hiff3.mp hb) (by simp)
                  · intro a ha
                    rw [hchar] at ha
                    have hrec : (⟨v1, v2, v3⟩ : AuthHelper) = a :=
                      Except.ok.inj ha
                    subst hrec
                    exact ⟨es, rfl, h1, h2, h3, hok1 rfl, hok2 rfl, hok3 rfl⟩

/-- Witness for C9: a valid configuration constructs successfully, the
accessors return the configured strings, and the claim's invalidity
predicate indeed fails for it. -/
theorem authHelper_construction_witness :
    strMalformed (some "authFile.json") = false ∧
    configShape goodAuthJson = true ∧
    AuthHelper.init (some "authFile.json") goodAuthJson =
      .ok ⟨PyVal.str "id1", PyVal.str "sec1", PyVal.str "irc1"⟩ ∧
    ¬ configInvalid goodAuthJson := by
  refine ⟨by rfl, by rfl, by rfl, ?_⟩
  intro hinv
  obtain ⟨e, he⟩ :=
    ((authHelper_construction (some "authFile.json") goodAuthJson (by rfl)
      (by rfl)).1).mpr hinv
  rw [show AuthHelper.init (some "authFile.json") goodAuthJson =
    .ok ⟨PyVal.str "id1", PyVal.str "sec1", PyVal.str "irc1"⟩ from rfl] at he
  exact absurd he (by simp)

/- ### C3, C6, C7: weather repository failure handling -/

theorem weatherReport_init_error_of_invalid (aq hu pr te hi lo : PyVal)
    (alerts conds : List String) (tconds : List PyVal)
    (hbad : isValidNum hu = false ∨ isValidNum pr = false ∨
      isValidNum te = false ∨ isValidNum hi = false ∨ isValidNum lo = false) :
    WeatherReport.init aq hu pr te hi lo alerts conds tconds =
      .error .valueError := by
  unfold WeatherReport.init
  rcases hbad with hb | hb | hb | hb | hb <;> simp [hb]

theorem weatherReport_init_ok (aq hu pr te hi lo : PyVal)
    (alerts conds : List String) (tconds : List PyVal)
    (h1 : isValidNum hu = true) (h2 : isValidNum pr = true)
    (h3 : isValidNum te = true) (h4 : isValidNum hi = true)
    (h5 : isValidNum lo = true) :
    WeatherReport.init aq hu pr te hi lo alerts conds tconds =
      .ok ⟨aq, pyRoundInt hu, pyRoundInt pr, te, hi, lo, alerts, conds,
        tconds⟩ := by
  unfold WeatherReport.init
  simp [h1, h2, h3, h4, h5]

theorem fetchAirQuality_none_on_failure (iqAirApiKey : Option String)
    (net : WeatherNetwork)
    (hfail : isValidStr iqAirApiKey = false ∨
      net.airResponse = .transportError ∨
      (∃ aj s, net.airResponse = .ok aj ∧ dictGetOpt aj "status" = .ok s ∧
        s.isStrEq "success" = false)) :
    (fetchAirQuality iqAirApiKey net).1 = .ok PyVal.none := by
  rcases hfail with hk | ht | ⟨aj, s, ha, hs, hne⟩
  · simp [fetchAirQuality, hk]
  · cases hk : isValidStr iqAirApiKey with
    | false => simp [fetchAirQuality, hk]
    | true => simp [fetchAirQuality, hk, ht]
  · cases hk : isValidStr iqAirApiKey with
    | false => simp [fetchAirQuality, hk]
    | true =>
      simp [fetchAirQuality, hk, ha, hs, hne, bindOk, Pure.pure, Except.pure]

/-- Counterexample to C3 as stated: a 2xx primary response whose JSON body
is missing the expected `current` field makes `fetchWeather` raise a
`KeyError` past the repository boundary instead of returning an absent
result. -/
theorem fetchWeather_throws_counterexample :
    (fetchWeather repoMiss 0 ⟨"loc1"⟩ netMalformedBody).result =
      .error PyErr.keyError := by rfl

/-- **C3 (amended)**: transport failures on the primary call are mapped to
an absent result and never escape `fetchWeather`; a 2xx response whose
body is missing expected fields (`current`, `daily`, a viable tomorrow
entry, ...), however, raises past the repository boundary — only the
`ValueError` from constructing the record out of invalid numeric fields is
caught. -/
theorem fetchWeather_transport_failure_absent (repo : WeatherRepository)
    (now : Int) (location : Location) (net : WeatherNetwork)
    (hmiss : (repo.cache.get now location.id).1 = Option.none)
    (htrans : net.weatherResponse = .transportError) :
    (fetchWeather repo now location net).result = .ok Option.none := by
  have hp : repo.cache.get now location.id =
      (Option.none, (repo.cache.get now location.id).2) := Prod.ext hmiss rfl
  unfold fetchWeather
  rw [hp, htrans]

/-- Witness for the amended C3: empty cache, primary call times out — the
fetch returns absent, no exception. -/
theorem fetchWeather_transport_failure_absent_witness :
    (fetchWeather repoMiss 0 ⟨"loc1"⟩ netDown).result = .ok Option.none :=
  fetchWeather_transport_failure_absent repoMiss 0 ⟨"loc1"⟩ netDown
    (by rfl) (by rfl)

/-- **C6**: when the fetch fails — transport failure on the primary call,
or a required numeric field (humidity, pressure, temperature, tomorrow's
high or low) is invalid — `fetchWeather` returns absent and the cache holds
no entry for the location afterwards (any existing entry is evicted, no
partial record is returned or cached). -/
theorem fetchWeather_failure_evicts (repo : WeatherRepository) (now : Int)
    (location : Location) (net : WeatherNetwork)
    (hmiss : (repo.cache.get now location.id).1 = Option.none)
    (hfail : net.weatherResponse = .transportError ∨
      (∃ j f aq n, net.weatherResponse = .ok j ∧
        extractWeatherFields createConditionIconsDict j = .ok f ∧
        fetchAirQuality repo.iqAirApiKey net = (.ok aq, n) ∧
        (isValidNum f.humidity = false ∨ isValidNum f.pressure = false ∨
         isValidNum f.temperature = false ∨
         isValidNum f.tomorrowsHighTemperature = false ∨
         isValidNum f.tomorrowsLowTemperature = false))) :
    (fetchWeather repo now location net).result = .ok Option.none ∧
    TimedDict.lookup (fetchWeather repo now location net).cache location.id =
      Option.none := by
  rcases hgc : repo.cache.get now location.id with ⟨cv, c2⟩
  rw [hgc] at hmiss
  have hcv : cv = Option.none := hmiss
  subst hcv
  rcases hfail with htrans | ⟨j, f, aq, n, hresp, hex, hair, hbad⟩
  · constructor
    · unfold fetchWeather
      rw [hgc, htrans]
    · unfold fetchWeather
      rw [hgc, htrans]
      exact TimedDict.lookup_delete _ _
  · have hbuild : buildWeatherReport repo.iqAirApiKey createConditionIconsDict
        net j = (.ok Option.none, n) := by
      simp only [buildWeatherReport, hex, hair,
        weatherReport_init_error_of_invalid aq f.humidity f.pressure
          f.temperature f.tomorrowsHighTemperature f.tomorrowsLowTemperature
          f.alerts f.conditions f.tomorrowsConditions hbad]
    constructor
    · simp only [fetchWeather, hgc, hresp, hbuild]
    · simp only [fetchWeather, hgc, hresp, hbuild]
      exact TimedDict.lookup_delete _ _

/-- Witness for C6: a cache whose entry for `"loc1"` has expired, a
transport failure on the primary call — the fetch returns absent and the
cache afterwards holds no entry for `"loc1"`. -/
theorem fetchWeather_failure_evicts_witness :
    (fetchWeather repoHit 100 ⟨"loc1"⟩ netDown).result = .ok Option.none ∧
    TimedDict.lookup (fetchWeather repoHit 100 ⟨"loc1"⟩ netDown).cache
      "loc1" = Option.none :=
  fetchWeather_failure_evicts repoHit 100 ⟨"loc1"⟩ netDown (by rfl)
    (Or.inl (by rfl))

/-- **C7**: when the primary call succeeds, all required numeric fields are
valid and the air-quality enrichment fails (missing API key, transport
error, or non-`success` status), `fetchWeather` still returns a fully
constructed record whose air-quality state is the defined "no air quality
data" value: `hasAirQuality` is `false`. -/
theorem fetchWeather_enrichment_best_effort (repo : WeatherRepository)
    (now : Int) (location : Location) (net : WeatherNetwork) (j : PyVal)
    (f : WeatherFields)
    (hmiss : (repo.cache.get now location.id).1 = Option.none)
    (hresp : net.weatherResponse = .ok j)
    (hex : extractWeatherFields createConditionIconsDict j = .ok f)
    (hv1 : isValidNum f.humidity = true)
    (hv2 : isValidNum f.pressure = true)
    (hv3 : isValidNum f.temperature = true)
    (hv4 : isValidNum f.tomorrowsHighTemperature = true)
    (hv5 : isValidNum f.tomorrowsLowTemperature = true)
    (hairfail : isValidStr repo.iqAirApiKey = false ∨
      net.airResponse = .transportError ∨
      (∃ aj s, net.airResponse = .ok aj ∧ dictGetOpt aj "status" = .ok s ∧
        s.isStrEq "success" = false)) :
    ∃ r, (fetchWeather repo now location net).result = .ok (Option.some r) ∧
      r.hasAirQuality = false := by
  have hair1 := fetchAirQuality_none_on_failure repo.iqAirApiKey net hairfail
  rcases hq : fetchAirQuality repo.iqAirApiKey net with ⟨r1, m⟩
  rw [hq] at hair1
  simp only at hair1
  subst hair1
  have hinit := weatherReport_init_ok PyVal.none f.humidity f.pressure
    f.temperature f.tomorrowsHighTemperature f.tomorrowsLowTemperature
    f.alerts f.conditions f.tomorrowsConditions hv1 hv2 hv3 hv4 hv5
  have hbuild : buildWeatherReport repo.iqAirApiKey createConditionIconsDict
      net j = (.ok (Option.some ⟨PyVal.none, pyRoundInt f.humidity,
        pyRoundInt f.pressure, f.temperature, f.tomorrowsHighTemperature,
        f.tomorrowsLowTemperature, f.alerts, f.conditions,
        f.tomorrowsConditions⟩), m) := by
    simp only [buildWeatherReport, hex, hq, hinit]
  rcases hgc : repo.cache.get now location.id with ⟨cv, c2⟩
  rw [hgc] at hmiss
  have hcv : cv = Option.none := hmiss
  subst hcv
  refine ⟨⟨PyVal.none, pyRoundInt f.humidity, pyRoundInt f.pressure,
    f.temperature, f.tomorrowsHighTemperature, f.tomorrowsLowTemperature,
    f.alerts, f.conditions, f.tomorrowsConditions⟩, ?_, rfl⟩
  simp only [fetchWeather, hgc, hresp, hbuild]

/-- Witness for C7: a well-formed primary response and an air-quality call
that fails with a transport error — the returned record is fully built with
`hasAirQuality` false. -/
theorem fetchWeather_enrichment_best_effort_witness :
    (fetchWeather repoMiss 0 ⟨"loc1"⟩ netGoodWeatherAirDown).result =
      .ok (Option.some ⟨PyVal.none, 50, 1000, PyVal.int 20, PyVal.int 25,
        PyVal.int 15, [], [], []⟩) ∧
    WeatherReport.hasAirQuality ⟨PyVal.none, 50, 1000, PyVal.int 20,
      PyVal.int 25, PyVal.int 15, [], [], []⟩ = false := by
  obtain ⟨r, h1, h2⟩ := fetchWeather_enrichment_best_effort repoMiss 0
    ⟨"loc1"⟩ netGoodWeatherAirDown goodWeatherJson goodWeatherFields
    (by rfl) (by rfl) (by rfl) (by rfl) (by rfl) (by rfl) (by rfl) (by rfl)
    (Or.inr (Or.inl (by rfl)))
  have hr : Option.some r = Option.some
      (⟨PyVal.none, 50, 1000, PyVal.int 20, PyVal.int 25, PyVal.int 15,
        [], [], []⟩ : WeatherReport) :=
    Except.ok.inj (h1.symm.trans (by rfl))
  exact ⟨by rw [h1, hr], by rw [← Option.some.inj hr]; exact h2⟩
